import Mathlib

/-!
Shallow embedding of the reflink library (clone-or-copy orchestration engine).

The embedding translates, from the source:
  * the error values of errors.go (ErrReflinkUnsupported, ErrReflinkFailed),
  * the Linux clone primitive adapter of reflink_linux.go (error plumbing of
    reflinkInternal / reflinkRangeInternal and the ENOTSUP to ErrReflinkFailed
    mapping),
  * the non-Linux stub adapter of reflink.go,
  * the orchestrator of api.go (reflinkFile behind Always and Auto, Reflink,
    Partial),
  * the sectionWriter ranged writer adapter.

File contents are lists of bytes (Nat).  Outcomes of external kernel calls
(the FICLONE and FICLONERANGE ioctls, copy_file_range, open, stat, rename,
io.Copy progress) are passed in as explicit oracle parameters, since they are
chosen by the outside world; the effect of a successful call on file content
is modelled from its documented contract (a whole-file clone makes the
destination content equal the source content; a ranged copy of k bytes writes
source bytes [srcOff, srcOff+k) at dstOff).
-/

/-- File contents: a list of byte values. -/
abbrev Bytes := List Nat

/-- The Go error values that can flow through the library.
`reflinkUnsupported` and `reflinkFailed` are the two exported errors of
errors.go; `errno n` is a raw OS errno propagated verbatim by the Linux
adapter; `goIoError n` stands for any other distinct runtime error value
(open failure, stat failure, write failure, rename failure, ...);
`eofErr` is the io.EOF error returned by io.CopyN on a short read;
`wrapStat e` is the wrapped error built by fmt.Errorf in Reflink when the
source cannot be stat-ed. -/
inductive GoError where
  | reflinkUnsupported
  | reflinkFailed
  | errno (n : Nat)
  | goIoError (n : Nat)
  | eofErr
  | wrapStat (e : GoError)
  | seekInvalidWhence
  | seekInvalidOffset
deriving DecidableEq, Repr

/-- src[off, off+n): read up to n bytes of f starting at offset off
(shorter if the file ends first).  Models io.NewSectionReader. -/
def readSlice (f : Bytes) (off n : Nat) : Bytes := (f.drop off).take n

/-- Positional write of p into f at absolute offset off, the semantics of
WriteAt / pwrite on a regular file: bytes before off are kept, a gap past
the end of file reads back as zeros, bytes past the written range are kept,
and the file grows exactly as far as the write reaches. -/
def writeAt (f : Bytes) (off : Nat) (p : Bytes) : Bytes :=
  f.take off ++ (List.replicate (off - f.length) 0 ++ (p ++ f.drop (off + p.length)))

/-- A write of a possibly empty buffer: writing zero bytes is not a write at
all (pwrite with count 0 does not extend the file, and io.Copy never issues
an empty Write). -/
def writeChunk (f : Bytes) (off : Nat) (p : Bytes) : Bytes :=
  if p = [] then f else writeAt f off p

theorem writeAt_length (f : Bytes) (off : Nat) (p : Bytes) :
    (writeAt f off p).length = max (off + p.length) f.length := by
  simp [writeAt]
  omega

theorem writeChunk_length_le (f : Bytes) (off : Nat) (p : Bytes) :
    f.length ≤ (writeChunk f off p).length := by
  unfold writeChunk
  split
  · exact Nat.le_refl _
  · rw [writeAt_length]
    omega

theorem writeAt_frame (f : Bytes) (off : Nat) (p : Bytes) (i : Nat)
    (hi : i < f.length) (ho : i < off ∨ off + p.length ≤ i) :
    (writeAt f off p)[i]? = f[i]? := by
  unfold writeAt
  rcases ho with h | h
  · rw [List.getElem?_append_left (by simp [List.length_take]; omega)]
    rw [List.getElem?_take]
    simp [h]
  · have hofl : off ≤ f.length := by omega
    rw [List.getElem?_append_right (by simp [List.length_take]; omega)]
    rw [List.getElem?_append_right (by simp [List.length_take]; omega)]
    rw [List.getElem?_append_right (by simp [List.length_take, List.length_replicate]; omega)]
    rw [List.getElem?_drop]
    congr 1
    simp [List.length_take, List.length_replicate]
    omega

theorem writeChunk_frame (f : Bytes) (off : Nat) (p : Bytes) (i : Nat)
    (hi : i < f.length) (ho : i < off ∨ off + p.length ≤ i) :
    (writeChunk f off p)[i]? = f[i]? := by
  unfold writeChunk
  split
  · rfl
  · exact writeAt_frame f off p i hi ho

theorem writeAt_nil_zero (p : Bytes) : writeAt [] 0 p = p := by
  simp [writeAt]

theorem writeChunk_nil_zero (p : Bytes) : writeChunk [] 0 p = p := by
  unfold writeChunk
  split
  · simp_all
  · exact writeAt_nil_zero p

theorem readSlice_length_le (f : Bytes) (off n : Nat) : (readSlice f off n).length ≤ n := by
  simp [readSlice, List.length_take]

theorem readSlice_zero_full (f : Bytes) : readSlice f 0 f.length = f := by
  simp [readSlice]

theorem readSlice_zero_len (f : Bytes) (off : Nat) : readSlice f off 0 = [] := by
  simp [readSlice]

/-- The errno value unix.ENOTSUP (= EOPNOTSUPP = 95 on Linux), the code the
kernel uses for a filesystem that does not support reflinks. -/
def ENOTSUP : Nat := 95

/-- The errno value EXDEV (= 18 on Linux), the code the FICLONE and
FICLONERANGE ioctls return when source and destination are not on the same
mounted filesystem (ioctl_ficlonerange(2)). -/
def EXDEV : Nat := 18

/-- The errno value EISDIR (= 21 on Linux), returned by the clone ioctls when
one of the files is a directory rather than a regular file. -/
def EISDIR : Nat := 21

/-- Raw outcome of one run of the SyscallConn / Control / ioctl plumbing used
by reflinkInternal and reflinkRangeInternal in reflink_linux.go:
srcConnErr is the error of src.SyscallConn(), dstConnErr of dst.SyscallConn(),
dstControlErr of sd.Control, srcControlErr of ss.Control, and ioctlErrno the
errno of the ioctl itself (none on ioctl success). -/
structure CloneSysOutcome where
  srcConnErr : Option GoError
  dstConnErr : Option GoError
  dstControlErr : Option GoError
  srcControlErr : Option GoError
  ioctlErrno : Option Nat
deriving DecidableEq, Repr

/-- reflink_linux.go, reflinkInternal: obtain both SyscallConn values, run the
FICLONE ioctl inside the nested Control calls, propagate plumbing errors
verbatim, and map an ioctl errno to ErrReflinkFailed exactly when
errors.Is(err3, unix.ENOTSUP) holds, i.e. when the errno is ENOTSUP. -/
def reflinkInternalLinux (o : CloneSysOutcome) : Option GoError :=
  match o.srcConnErr with
  | some e => some e
  | none =>
    match o.dstConnErr with
    | some e => some e
    | none =>
      match o.dstControlErr with
      | some e => some e
      | none =>
        match o.srcControlErr with
        | some e => some e
        | none =>
          match o.ioctlErrno with
          | none => none
          | some n => if n = ENOTSUP then some .reflinkFailed else some (.errno n)

/-- reflink_linux.go, reflinkRangeInternal: identical plumbing around the
FICLONERANGE ioctl; the three range arguments only populate the
unix.FileCloneRange request consumed by the kernel, so they do not enter the
error propagation. -/
def reflinkRangeInternalLinux (_dstOffset _srcOffset _n : Int) (o : CloneSysOutcome) :
    Option GoError :=
  match o.srcConnErr with
  | some e => some e
  | none =>
    match o.dstConnErr with
    | some e => some e
    | none =>
      match o.dstControlErr with
      | some e => some e
      | none =>
        match o.srcControlErr with
        | some e => some e
        | none =>
          match o.ioctlErrno with
          | none => none
          | some m => if m = ENOTSUP then some .reflinkFailed else some (.errno m)

/-- reflink.go (the build without the clone primitive): reflinkInternal always
returns ErrReflinkUnsupported, with no side effect. -/
def reflinkInternalStub : Option GoError := some .reflinkUnsupported

/-- reflink.go: reflinkRangeInternal always returns ErrReflinkUnsupported on
the stub platform, also when the requested length is zero. -/
def reflinkRangeInternalStub : Option GoError := some .reflinkUnsupported

/-- reflink.go: copyFileRange always returns (0, ErrReflinkUnsupported) on the
stub platform. -/
def copyFileRangeStub : Nat × Option GoError := (0, some .reflinkUnsupported)

/-- A pair of open handles: source content and destination content.  The
source is only read by every operation. -/
structure HPair where
  src : Bytes
  dst : Bytes
deriving DecidableEq, Repr

/-- The streamed-copy stage of Partial and Reflink: io.CopyN of n bytes from
io.NewSectionReader(src, srcOff, n) into a sectionWriter based at dstOff over
dst.  failAt = some (j, e) injects an underlying read or write failure after j
bytes have been transferred (only possible while bytes remain, hence the
j < chunk.length guard); otherwise the copy transfers the whole readable
chunk and io.CopyN reports io.EOF when that is shorter than n. -/
def streamCopyN (dst src : Bytes) (dstOff srcOff n : Nat)
    (failAt : Option (Nat × GoError)) : Bytes × Option GoError :=
  let chunk := readSlice src srcOff n
  match failAt with
  | some (j, e) =>
    if j < chunk.length then (writeChunk dst dstOff (chunk.take j), some e)
    else (writeChunk dst dstOff chunk, if chunk.length = n then none else some .eofErr)
  | none => (writeChunk dst dstOff chunk, if chunk.length = n then none else some .eofErr)

/-- api.go, Partial: try reflinkRangeInternal; when it failed and fallback is
set, try copyFileRange over the same range (its byte count is discarded by
the assignment to the blank identifier); when that also failed and fallback is
set, stream exactly n bytes via io.CopyN over a sectionWriter based at
dstOff.  cloneRes is the adapter result for the ranged clone, cfr the
(count, error) outcome of copy_file_range, failAt the streamed-copy failure
oracle.  A successful ranged clone makes dst[dstOff, dstOff+n) share the
source range per the FICLONERANGE contract; a successful copy_file_range of k
bytes writes source bytes [srcOff, srcOff+k) at dstOff, k never exceeding the
requested n. -/
def Partial (fs : HPair) (dstOff srcOff n : Nat) (fallback : Bool)
    (cloneRes : Option GoError) (cfr : Nat × Option GoError)
    (failAt : Option (Nat × GoError)) : HPair × Option GoError :=
  let s1 : HPair × Option GoError :=
    match cloneRes with
    | none => ({ fs with dst := writeChunk fs.dst dstOff (readSlice fs.src srcOff n) }, none)
    | some e => (fs, some e)
  let s2 : HPair × Option GoError :=
    if s1.2.isSome && fallback then
      match cfr with
      | (k, none) =>
        ({ s1.1 with dst := writeChunk s1.1.dst dstOff (readSlice s1.1.src srcOff (min k n)) },
         none)
      | (_, some e) => (s1.1, some e)
    else s1
  if s2.2.isSome && fallback then
    let r := streamCopyN s2.1.dst s2.1.src dstOff srcOff n failAt
    ({ s2.1 with dst := r.1 }, r.2)
  else s2

/-- api.go, Reflink: try reflinkInternal (success makes dst content equal src
content per the FICLONE contract); when it failed and fallback is set, stat
the source (a stat failure is wrapped and returned at once), try
copyFileRange of the whole size (count discarded), and if that also failed,
truncate dst to zero length and io.Copy the whole source through a
sectionWriter based at offset 0. -/
def Reflink (fs : HPair) (fallback : Bool) (cloneRes : Option GoError)
    (statErr : Option GoError) (cfr : Nat × Option GoError)
    (failAt : Option (Nat × GoError)) : HPair × Option GoError :=
  match cloneRes with
  | none => ({ fs with dst := fs.src }, none)
  | some e =>
    if fallback then
      match statErr with
      | some se => (fs, some (.wrapStat se))
      | none =>
        let size := fs.src.length
        match cfr with
        | (k, none) =>
          ({ fs with dst := writeChunk fs.dst 0 (readSlice fs.src 0 (min k size)) }, none)
        | (_, some _) =>
          let r := streamCopyN [] fs.src 0 0 size failAt
          ({ fs with dst := r.1 }, r.2)
    else (fs, some e)

/-- The creation mode of the temporary file: ioutil.TempFile creates its file
with permission bits 0600. -/
def tmpDefaultMode : Nat := 0o600

/-- The world of a path-based call: content and permission bits of the file
behind srcPath, the file behind dstPath (none when absent), and the
temporary output file (none when absent). -/
structure PathWorld where
  src : Bytes
  srcMode : Nat
  dst : Option (Bytes × Nat)
  tmp : Option (Bytes × Nat)
deriving DecidableEq, Repr

/-- External outcomes of one run of reflinkFile, in the order the underlying
calls appear in api.go: os.Open(src), ioutil.TempFile, the clone adapter
result of reflinkInternal, s.Stat() before the accelerated copy, the
(count, error) result of copyFileRange, a failure point of io.Copy
(none means io.Copy runs to completion), and os.Rename. -/
structure FileOracle where
  openErr : Option GoError
  tmpErr : Option GoError
  cloneRes : Option GoError
  statErr : Option GoError
  cfr : Nat × Option GoError
  copyFail : Option (Nat × GoError)
  renameErr : Option GoError
deriving DecidableEq, Repr

/-- api.go, reflinkFile (the engine behind Always and Auto): open src, create
a temporary file next to dst, clone into it; on clone failure with fallback,
stat the source and copy_file_range the whole size into the temporary file
(count discarded); if an error is still pending and fallback is set, io.Copy
the whole source into it.  The temporary file is then closed; on any pending
error it is removed and the error returned.  The mode-copy step then calls
tmp.Chmod(st.Mode()) on the already closed temporary handle, which the os
package rejects with ErrClosed; as the call site discards the returned error,
the temporary file keeps its creation mode 0600.  Finally os.Rename moves
the temporary file over dstPath (on rename failure the temporary file is
removed and the error returned). -/
def reflinkFile (w : PathWorld) (o : FileOracle) (fallback : Bool) :
    PathWorld × Option GoError :=
  match o.openErr with
  | some e => (w, some e)
  | none =>
    match o.tmpErr with
    | some e => (w, some e)
    | none =>
      let size := w.src.length
      let s1 : Bytes × Option GoError :=
        match o.cloneRes with
        | none => (w.src, none)
        | some e => ([], some e)
      let s2 : Bytes × Option GoError :=
        if s1.2.isSome && fallback then
          match o.statErr with
          | some e => (s1.1, some e)
          | none =>
            match o.cfr with
            | (k, none) => (writeChunk s1.1 0 (readSlice w.src 0 (min k size)), none)
            | (_, some e) => (s1.1, some e)
        else s1
      let s3 : Bytes × Option GoError :=
        if s2.2.isSome && fallback then
          match o.copyFail with
          | none => (writeChunk s2.1 0 w.src, none)
          | some (j, e) => (writeChunk s2.1 0 (w.src.take j), some e)
        else s2
      match s3.2 with
      | some e => ({ w with tmp := none }, some e)
      | none =>
        match o.renameErr with
        | some e => ({ w with tmp := none }, some e)
        | none => ({ w with dst := some (s3.1, tmpDefaultMode), tmp := none }, none)

/-- The sectionWriter ranged writer adapter: a base position in the
underlying file and a current relative offset, both int64. -/
structure sectionWriter where
  base : Int
  off : Int
deriving DecidableEq, Repr

/-- sectionWriter.Write: issue WriteAt(p, base+off) on the underlying
io.WriterAt (passed here as the function wAt from buffer and absolute offset
to the count written and error), then advance off by the count actually
written, returning the WriteAt result unchanged. -/
def sectionWriter.write (s : sectionWriter) (wAt : Bytes → Int → Nat × Option GoError)
    (p : Bytes) : (Nat × Option GoError) × sectionWriter :=
  let r := wAt p (s.base + s.off)
  (r, { s with off := s.off + (r.1 : Int) })

/-- sectionWriter.Seek: whence 0 (io.SeekStart) keeps the given offset,
whence 1 (io.SeekCurrent) adds the current relative offset; any other whence
(including 2, io.SeekEnd) is rejected with an invalid-whence error before the
sign check; a resulting negative offset is rejected with an invalid-offset
error; on either error the relative offset is unchanged and returned. -/
def sectionWriter.seek (s : sectionWriter) (offset : Int) (whence : Int) :
    (Int × Option GoError) × sectionWriter :=
  if whence = 0 then
    if offset < 0 then ((s.off, some .seekInvalidOffset), s)
    else ((offset, none), { s with off := offset })
  else if whence = 1 then
    if offset + s.off < 0 then ((s.off, some .seekInvalidOffset), s)
    else ((offset + s.off, none), { s with off := offset + s.off })
  else ((s.off, some .seekInvalidWhence), s)

/-- C1: content equality fails on the code.  Auto (reflinkFile with fallback)
on a two-byte source: the clone stage fails, the accelerated-copy stage
reports 1 byte copied with no error; because reflinkFile discards the byte
count of copyFileRange, the run is accepted as a success, the streamed stage
never runs, the rename happens, and the destination ends up holding only the
first byte of the source instead of its full content.  This contradicts the
stated contract of the code itself (reflinkFile: perform the copy operation;
Auto: fallback to normal data copy). -/
theorem c1_short_accelerated_copy_breaks_content_equality :
    reflinkFile ⟨[7, 8], 0o644, some ([9, 9], 0o644), none⟩
        ⟨none, none, some .reflinkFailed, none, (1, none), none, none⟩ true
      = (⟨[7, 8], 0o644, some ([7], tmpDefaultMode), none⟩, none) ∧
    ([7] : Bytes) ≠ [7, 8] := by
  decide

/-- C9: mode preservation fails on the code.  A fully successful Auto run
(clone succeeds at once, rename succeeds) on a source with permission bits
0755 leaves the destination with the temporary-file creation mode 0600,
because tmp.Chmod(st.Mode()) is issued after tmp.Close() and therefore always
fails with ErrClosed, its error being discarded.  This contradicts the stated
contract of the code itself (reflinkFile: the function preserves the file
mode of the source file when possible). -/
theorem c9_mode_never_copied :
    reflinkFile ⟨[1], 0o755, none, none⟩
        ⟨none, none, none, none, (0, none), none, none⟩ true
      = (⟨[1], 0o755, some ([1], tmpDefaultMode), none⟩, none) ∧
    tmpDefaultMode ≠ 0o755 := by
  decide

/-- C5 counterexample: a cross-filesystem pair is rejected by the FICLONE
ioctl with errno EXDEV (ioctl_ficlonerange(2)), and the adapter propagates
that errno verbatim instead of returning ErrReflinkFailed, because the
mapping in reflink_linux.go tests errors.Is(err3, unix.ENOTSUP) only; the
same holds for the ranged clone and for EISDIR on a non-regular file. -/
theorem c5_cross_filesystem_errno_not_mapped_cex :
    reflinkInternalLinux ⟨none, none, none, none, some EXDEV⟩ = some (.errno EXDEV) ∧
    GoError.errno EXDEV ≠ .reflinkFailed ∧
    reflinkRangeInternalLinux 0 0 4096 ⟨none, none, none, none, some EXDEV⟩
      = some (.errno EXDEV) ∧
    reflinkInternalLinux ⟨none, none, none, none, some EISDIR⟩ = some (.errno EISDIR) := by
  decide

/-- C5 amended: the whole-file and ranged clone adapters return
ErrReflinkFailed exactly when the ioctl fails with errno ENOTSUP (the
filesystem does not support reflinks); every other ioctl errno — including
EXDEV for a cross-filesystem pair and EISDIR for a non-regular file — and
every plumbing error is propagated verbatim and never masked. -/
theorem c5_error_mapping (n : Nat) (e : GoError) (dOff sOff len : Int) :
    (reflinkInternalLinux ⟨none, none, none, none, none⟩ = none) ∧
    (reflinkInternalLinux ⟨none, none, none, none, some n⟩
      = some (if n = ENOTSUP then .reflinkFailed else .errno n)) ∧
    (reflinkRangeInternalLinux dOff sOff len ⟨none, none, none, none, some n⟩
      = some (if n = ENOTSUP then .reflinkFailed else .errno n)) ∧
    (n ≠ ENOTSUP → reflinkInternalLinux ⟨none, none, none, none, some n⟩
      = some (.errno n)) ∧
    (reflinkInternalLinux ⟨some e, none, none, none, none⟩ = some e) := by
  by_cases h : n = ENOTSUP <;>
    simp [reflinkInternalLinux, reflinkRangeInternalLinux, h]

/-- C5 amended, witness: errno 13 (EACCES, permission denied) is not ENOTSUP
and is propagated verbatim. -/
theorem c5_error_mapping_witness :
    reflinkInternalLinux ⟨none, none, none, none, some 13⟩ = some (.errno 13) := by
  have h := c5_error_mapping 13 (.goIoError 0) 0 0 0
  exact h.2.2.2.1 (by decide)

/-- C4 counterexample: in Partial with fallback, the accelerated-copy stage
reports 1 of the 2 requested bytes copied with no error; the orchestrator
accepts this as stage success (the count is discarded), returns success with
a destination that does not hold the requested range, and never reaches the
streamed stage (whose oracle here would have raised a distinct error). -/
theorem c4_short_copy_accepted_cex :
    Partial ⟨[7, 8], [0, 0]⟩ 0 0 2 true (some .reflinkFailed) (1, none)
        (some (0, .goIoError 5))
      = (⟨[7, 8], [7, 0]⟩, none) ∧
    ([7, 0] : Bytes) ≠ [7, 8] := by
  decide

/-- C4 amended: the accelerated-copy stage of Partial is treated as failed
exactly when copy_file_range returns an error.  When it returns no error the
whole call succeeds whatever byte count was reported and the streamed stage
never runs (the result does not depend on the streamed-copy oracle); when it
returns an error the streamed stage runs and decides the final error. -/
theorem c4_accelerated_stage_failure_is_error_only (fs : HPair)
    (dstOff srcOff n k : Nat) (e e2 : GoError) (failAt : Option (Nat × GoError)) :
    (( Partial fs dstOff srcOff n true (some e) (k, none) failAt).2 = none) ∧
    ( Partial fs dstOff srcOff n true (some e) (k, none) failAt
      = Partial fs dstOff srcOff n true (some e) (k, none) none) ∧
    (( Partial fs dstOff srcOff n true (some e) (k, some e2) failAt).2
      = (streamCopyN fs.dst fs.src dstOff srcOff n failAt).2) := by
  refine ⟨rfl, rfl, rfl⟩

/-- C6 counterexample: on the stub platform (reflink.go), Partial with
length 0 and fallback disabled returns ErrReflinkUnsupported rather than
succeeding: a zero length is not special-cased as a no-op at the clone
stage. -/
theorem c6_zero_length_not_noop_without_fallback_cex :
    Partial ⟨[1, 2], [3, 4]⟩ 0 0 0 false reflinkRangeInternalStub copyFileRangeStub none
      = (⟨[1, 2], [3, 4]⟩, some .reflinkUnsupported) := by
  decide

/-- C6 amended: Partial with length 0 never modifies either file; with
fallback enabled it always succeeds (whatever the clone and accelerated
stages return, the streamed stage transfers zero bytes and io.CopyN reports
no error), while with fallback disabled it returns exactly the clone-stage
result, hence an error whenever the clone stage fails, as on the stub
platform. -/
theorem c6_zero_length_noop (fs : HPair) (dstOff srcOff : Nat)
    (cloneRes : Option GoError) (cfr : Nat × Option GoError)
    (failAt : Option (Nat × GoError)) :
    Partial fs dstOff srcOff 0 true cloneRes cfr failAt = (fs, none) ∧
    Partial fs dstOff srcOff 0 false cloneRes cfr failAt = (fs, cloneRes) := by
  obtain ⟨s, d⟩ := fs
  obtain ⟨k, ce⟩ := cfr
  rcases cloneRes with _ | ec <;> rcases ce with _ | e2 <;>
    rcases failAt with _ | ⟨j, e3⟩ <;>
    simp [Partial, streamCopyN, readSlice_zero_len, writeChunk, Nat.min_zero]

/-- C7 counterexample: a successful Partial whose range reaches past the end
of the destination resizes it: on an empty destination, copying 1 byte at
offset 0 through the streamed fallback grows the destination from length 0
to length 1, so Partial does not leave the file size unchanged in general. -/
theorem c7_partial_can_extend_dst_cex :
    Partial ⟨[5], []⟩ 0 0 1 true (some .reflinkUnsupported) (0, some .reflinkUnsupported) none
      = (⟨[5], [5]⟩, none) ∧
    ([5] : Bytes).length ≠ ([] : Bytes).length := by
  decide

/-- Every run of Partial writes at most one chunk, at destination offset
dstOff, of at most n bytes (a chunk of length zero standing for the runs that
write nothing), and never reads or writes the source. -/
theorem partial_dst_shape (fs : HPair) (dstOff srcOff n : Nat) (fallback : Bool)
    (cloneRes : Option GoError) (cfr : Nat × Option GoError)
    (failAt : Option (Nat × GoError)) :
    ∃ p : Bytes, p.length ≤ n ∧
      ( Partial fs dstOff srcOff n fallback cloneRes cfr failAt).1.dst
        = writeChunk fs.dst dstOff p ∧
      ( Partial fs dstOff srcOff n fallback cloneRes cfr failAt).1.src = fs.src := by
  obtain ⟨s, d⟩ := fs
  obtain ⟨k, ce⟩ := cfr
  rcases cloneRes with _ | ec
  · exact ⟨readSlice s srcOff n, readSlice_length_le s srcOff n, rfl, rfl⟩
  · rcases ce with _ | e2
    · cases fallback
      · exact ⟨[], by simp [writeChunk], rfl, rfl⟩
      · refine ⟨readSlice s srcOff (min k n), ?_, rfl, rfl⟩
        calc (readSlice s srcOff (min k n)).length ≤ min k n :=
              readSlice_length_le s srcOff (min k n)
          _ ≤ n := Nat.min_le_right k n
    · cases fallback
      · exact ⟨[], by simp [writeChunk], rfl, rfl⟩
      · rcases failAt with _ | ⟨j, e3⟩
        · exact ⟨readSlice s srcOff n, readSlice_length_le s srcOff n, rfl, rfl⟩
        · by_cases hj : j < (readSlice s srcOff n).length
          · refine ⟨(readSlice s srcOff n).take j, ?_, ?_, rfl⟩
            · calc ((readSlice s srcOff n).take j).length ≤ j :=
                    List.length_take_le j _
                _ ≤ n := le_trans (Nat.le_of_lt hj) (readSlice_length_le s srcOff n)
            · simp [Partial, streamCopyN, hj]
          · refine ⟨readSlice s srcOff n, readSlice_length_le s srcOff n, ?_, rfl⟩
            simp [Partial, streamCopyN, hj]

/-- C7 amended (frame effect of Partial): on every run, successful or not,
every pre-existing destination byte outside [dstOffset, dstOffset+length)
keeps its value, the source is untouched, and the destination is never
truncated or shrunk — though it may grow when dstOffset+length exceeds its
pre-call size, as the counterexample shows. -/
theorem c7_partial_frame (fs : HPair) (dstOff srcOff n : Nat) (fallback : Bool)
    (cloneRes : Option GoError) (cfr : Nat × Option GoError)
    (failAt : Option (Nat × GoError)) (i : Nat) :
    fs.dst.length ≤ (( Partial fs dstOff srcOff n fallback cloneRes cfr failAt).1.dst).length ∧
    ( Partial fs dstOff srcOff n fallback cloneRes cfr failAt).1.src = fs.src ∧
    (i < fs.dst.length → i < dstOff ∨ dstOff + n ≤ i →
      (( Partial fs dstOff srcOff n fallback cloneRes cfr failAt).1.dst)[i]?
        = fs.dst[i]?) := by
  obtain ⟨p, hp, hdst, hsrc⟩ :=
    partial_dst_shape fs dstOff srcOff n fallback cloneRes cfr failAt
  refine ⟨?_, hsrc, ?_⟩
  · rw [hdst]
    exact writeChunk_length_le fs.dst dstOff p
  · intro hi ho
    rw [hdst]
    exact writeChunk_frame fs.dst dstOff p i hi (by omega)

/-- C7 amended, witness: copying 1 byte at destination offset 1 over a
three-byte destination leaves byte 0 unchanged. -/
theorem c7_partial_frame_witness :
    (( Partial ⟨[1, 2], [3, 4, 5]⟩ 1 0 1 true (some .reflinkUnsupported)
        (0, some .reflinkUnsupported) none).1.dst)[0]? = some 3 := by
  have h := c7_partial_frame ⟨[1, 2], [3, 4, 5]⟩ 1 0 1 true (some .reflinkUnsupported)
      (0, some .reflinkUnsupported) none 0
  exact (h.2.2 (by decide) (Or.inl (by decide))).trans (by decide)

/-- C8: the sectionWriter contract.  Write issues the underlying WriteAt at
absolute offset base + off and advances the relative offset by exactly the
count the underlying writer reports (whatever error accompanies it); Seek
with whence 0 (from start) adopts the given offset, whence 1 (from current)
adds it to the current offset, any other whence (from end included) is
rejected with an invalid-whence error, and a resulting negative offset is
rejected with an invalid-offset error, the relative offset surviving both
rejections unchanged. -/
theorem c8_sectionWriter_contract (s : sectionWriter)
    (wAt : Bytes → Int → Nat × Option GoError) (p : Bytes) (offset : Int) :
    (( s.write wAt p).1 = wAt p (s.base + s.off) ∧
      ( s.write wAt p).2.off = s.off + ((wAt p (s.base + s.off)).1 : Int) ∧
      ( s.write wAt p).2.base = s.base) ∧
    (0 ≤ offset → s.seek offset 0 = ((offset, none), { s with off := offset })) ∧
    (offset < 0 → s.seek offset 0 = ((s.off, some .seekInvalidOffset), s)) ∧
    (0 ≤ offset + s.off →
      s.seek offset 1 = ((offset + s.off, none), { s with off := offset + s.off })) ∧
    (offset + s.off < 0 → s.seek offset 1 = ((s.off, some .seekInvalidOffset), s)) ∧
    s.seek offset 2 = ((s.off, some .seekInvalidWhence), s) := by
  refine ⟨⟨rfl, rfl, rfl⟩, ?_, ?_, ?_, ?_, ?_⟩
  · intro h
    simp [sectionWriter.seek, not_lt.mpr h]
  · intro h
    simp [sectionWriter.seek, h]
  · intro h
    simp [sectionWriter.seek, not_lt.mpr h]
  · intro h
    simp [sectionWriter.seek, h]
  · simp [sectionWriter.seek]

/-- C8, witness: from a base of 2 and relative offset 3, an absolute seek to
5 succeeds and a from-end seek is rejected leaving the offset at 3. -/
theorem c8_sectionWriter_contract_witness :
    sectionWriter.seek ⟨2, 3⟩ 5 0 = ((5, none), ⟨2, 5⟩) ∧
    sectionWriter.seek ⟨2, 3⟩ 5 2 = ((3, some .seekInvalidWhence), ⟨2, 3⟩) := by
  have h := c8_sectionWriter_contract ⟨2, 3⟩ (fun p off => (p.length, none)) [1] 5
  exact ⟨h.2.1 (by decide), h.2.2.2.2.2⟩

/-- C10: when Reflink with fallback reaches the streamed stage (clone failed,
stat succeeded, accelerated copy failed), the destination is truncated to
zero length before copying; if the streamed copy then fails after j bytes,
the error is reported and the destination holds exactly the first j bytes of
the source — its pre-call content is not restored. -/
theorem c10_reflink_stream_fallback_not_atomic (fs : HPair) (e e2 e3 : GoError)
    (k j : Nat) (hj : j < fs.src.length) :
    Reflink fs true (some e) none (k, some e2) (some (j, e3))
      = ({ fs with dst := fs.src.take j }, some e3) := by
  simp only [Reflink, streamCopyN, readSlice_zero_full]
  rw [if_pos hj]
  simp [writeChunk_nil_zero]

/-- C10, witness: pre-call destination [9, 9] is replaced by the one-byte
prefix of the source when the streamed fallback dies after one byte. -/
theorem c10_reflink_stream_fallback_not_atomic_witness :
    Reflink ⟨[1, 2, 3], [9, 9]⟩ true (some .reflinkFailed) none (0, some .reflinkFailed)
        (some (1, .goIoError 5))
      = (⟨[1, 2, 3], [1]⟩, some (.goIoError 5)) := by
  have h := c10_reflink_stream_fallback_not_atomic ⟨[1, 2, 3], [9, 9]⟩ .reflinkFailed
      .reflinkFailed (.goIoError 5) 0 1 (by decide)
  exact h

set_option maxHeartbeats 1000000

/-- C2: atomicity of the path-based operations.  For every run of reflinkFile
(Always and Auto), whatever the outcomes of open, temporary-file creation,
clone, stat, accelerated copy, streamed copy and rename: the temporary file
is never left behind, an erroring run leaves the destination path exactly as
it was (absent if absent, otherwise content and mode unchanged), and only the
final rename of the temporary file ever changes the destination. -/
theorem c2_path_atomicity (w : PathWorld) (o : FileOracle) (fallback : Bool)
    (h : w.tmp = none) :
    ( reflinkFile w o fallback).1.tmp = none ∧
    (( reflinkFile w o fallback).2.isSome → ( reflinkFile w o fallback).1.dst = w.dst) ∧
    ( reflinkFile w o fallback).1.src = w.src ∧
    ( reflinkFile w o fallback).1.srcMode = w.srcMode := by
  obtain ⟨oe, te, cr, se, ⟨k, ce⟩, cf, re⟩ := o
  rcases oe with _ | e1 <;> rcases te with _ | e2 <;> rcases cr with _ | e3 <;>
    rcases se with _ | e4 <;> rcases ce with _ | e5 <;> rcases cf with _ | ⟨j, e6⟩ <;>
    rcases re with _ | e7 <;> cases fallback <;>
    simp [reflinkFile, h]

/-- C2, witness: a run in which every fallback stage fails removes the
temporary file and leaves the pre-call destination content and mode
untouched. -/
theorem c2_path_atomicity_witness :
    ( reflinkFile ⟨[1], 0o644, some ([2], 0o600), none⟩
        ⟨none, none, some .reflinkFailed, none, (0, some .reflinkFailed),
          some (0, .goIoError 28), none⟩ true).1.dst = some ([2], 0o600) ∧
    ( reflinkFile ⟨[1], 0o644, some ([2], 0o600), none⟩
        ⟨none, none, some .reflinkFailed, none, (0, some .reflinkFailed),
          some (0, .goIoError 28), none⟩ true).1.tmp = none := by
  have h := c2_path_atomicity ⟨[1], 0o644, some ([2], 0o600), none⟩
      ⟨none, none, some .reflinkFailed, none, (0, some .reflinkFailed),
        some (0, .goIoError 28), none⟩ true rfl
  exact ⟨h.2.1 (by decide), h.1⟩

/-- C3: unsupported propagation on the stub platform.  With the clone adapter
and accelerated-copy primitive taken from reflink.go (both always returning
ErrReflinkUnsupported), Always — reflinkFile without fallback — returns
ErrReflinkUnsupported whenever open and temporary-file creation succeed;
Auto — reflinkFile with fallback — succeeds whenever the generic I/O
(open, temporary file, streamed copy, rename) succeeds, and never returns
ErrReflinkUnsupported as long as no generic primitive itself produces that
exact error value, whatever the source stat outcome. -/
theorem c3_unsupported_propagation (w : PathWorld) (o : FileOracle)
    (hclone : o.cloneRes = reflinkInternalStub) (hcfr : o.cfr = copyFileRangeStub) :
    ((o.openErr = none ∧ o.tmpErr = none) →
      ( reflinkFile w o false).2 = some .reflinkUnsupported) ∧
    ((o.openErr = none ∧ o.tmpErr = none ∧ o.copyFail = none ∧ o.renameErr = none) →
      ( reflinkFile w o true).2 = none) ∧
    ((o.openErr ≠ some .reflinkUnsupported ∧ o.tmpErr ≠ some .reflinkUnsupported ∧
        (∀ j e, o.copyFail = some (j, e) → e ≠ .reflinkUnsupported) ∧
        o.renameErr ≠ some .reflinkUnsupported) →
      ( reflinkFile w o true).2 ≠ some .reflinkUnsupported) := by
  obtain ⟨oe, te, cr, se, ⟨k, ce⟩, cf, re⟩ := o
  simp only [reflinkInternalStub, copyFileRangeStub] at hclone hcfr
  obtain ⟨hk, hce⟩ : k = 0 ∧ ce = some .reflinkUnsupported := by
    have h5 := congrArg Prod.fst hcfr
    have h6 := congrArg Prod.snd hcfr
    simp_all
  subst hclone hk hce
  refine ⟨?_, ?_, ?_⟩
  · rintro ⟨h1, h2⟩
    subst h1 h2
    simp [reflinkFile]
  · rintro ⟨h1, h2, h3, h4⟩
    subst h1 h2 h3 h4
    rcases se with _ | e4 <;> simp [reflinkFile]
  · rintro ⟨h1, h2, h3, h4⟩
    rcases oe with _ | e1 <;> rcases te with _ | e2 <;> rcases se with _ | e4 <;>
      rcases cf with _ | ⟨j, e6⟩ <;> rcases re with _ | e7
    all_goals
      first
        | (have h6 := h3 j e6 rfl
           simp_all [reflinkFile])
        | simp_all [reflinkFile]

/-- C3, witness: on the stub platform with clean generic I/O, Always fails
with ErrReflinkUnsupported and Auto succeeds. -/
theorem c3_unsupported_propagation_witness :
    ( reflinkFile ⟨[1, 2], 0o644, some ([9], 0o600), none⟩
        ⟨none, none, reflinkInternalStub, none, copyFileRangeStub, none, none⟩ false).2
      = some .reflinkUnsupported ∧
    ( reflinkFile ⟨[1, 2], 0o644, some ([9], 0o600), none⟩
        ⟨none, none, reflinkInternalStub, none, copyFileRangeStub, none, none⟩ true).2
      = none := by
  have h := c3_unsupported_propagation ⟨[1, 2], 0o644, some ([9], 0o600), none⟩
      ⟨none, none, reflinkInternalStub, none, copyFileRangeStub, none, none⟩ rfl rfl
  exact ⟨h.1 ⟨rfl, rfl⟩, h.2.1 ⟨rfl, rfl, rfl, rfl⟩⟩
